import Mathlib

/-!
Verification of the BookBotAI query-routing and content-analysis pipeline.

Shallow embedding of the Python sources:
  src/src/analyzer/url_analyzer.py  (class URLAnalyzer)
  src/src/agents/url_agent.py       (class URLAgent)
  src/src/agents/agent_system.py    (class AgentSystem)
  src/src/config/llm_wrapper.py     (class GeminiLLM)

Python strings are modelled as `List Char` (`Str`); Python `None`-able
strings as `Option Str`; a raised exception from a collaborator as the
`Except.error` branch of that collaborator's result.  The external
collaborators the spec itself excludes (HTTP fetching, BeautifulSoup
parsing, the Gemini SDK) are abstracted as an `Env` of oracle functions,
one per source method whose body is network + markup parsing; every call
of such a method performs exactly one HTTP GET in the source, so the
embedding counts one fetch per call.  All routing, sampling, caching and
error-handling logic is translated statement by statement.
-/

namespace BookBot

/-- Python `str`, as a list of code points. -/
abbrev Str := List Char

/-- Python `s.lower()` (the queries involved are ASCII). -/
def lower (s : Str) : Str := s.map Char.toLower

/-- Python truthiness of an optional string: `None` and `""` are falsy. -/
def pyTruthy : Option Str → Bool
  | none => false
  | some s => !s.isEmpty

/-- Python's substring test `pat in s`. -/
def inStr (pat : Str) : Str → Bool
  | [] => pat.isEmpty
  | c :: rest => pat.isPrefixOf (c :: rest) || inStr pat rest

/-- The metadata dict built by `URLAnalyzer._extract_metadata_from_url`:
it always carries exactly the keys title/author/language/year (possibly
empty, or the "Unknown …" sentinels of its exception path). -/
structure Metadata where
  title : Str
  author : Str
  language : Str
  year : Str
deriving DecidableEq

/-- The dict returned by `URLAnalyzer._analyze_content_with_gemini`:
keys summary/genre/content. -/
structure GeminiAnalysis where
  summary : Str
  genre : Str
  content : Str
deriving DecidableEq

/-- The merged dict `{**metadata, **analysis, "url": url}` built by
`URLAnalyzer.analyze_url` on its non-error path. -/
structure BookRecord where
  title : Str
  author : Str
  language : Str
  year : Str
  summary : Str
  genre : Str
  content : Str
  url : Str
deriving DecidableEq

/-- Result of `URLAnalyzer.analyze_url`: either the error dict
`{"error": msg}` or the merged record. -/
inductive AnalyzeResult where
  | err (msg : Str)
  | ok (r : BookRecord)
deriving DecidableEq

/-- Counts of outbound calls made while evaluating an operation:
HTTP GETs issued through `self.session` and `llm.invoke` calls. -/
structure Calls where
  fetches : Nat
  llm_calls : Nat
deriving DecidableEq

/-- Add `n` LLM calls to a count. -/
def bumpLlm (c : Calls) (n : Nat) : Calls := ⟨c.fetches, c.llm_calls + n⟩

/-- The external collaborators of `URLAnalyzer`, abstracted: each field
summarises one source method whose body is one `session.get` plus
markup parsing (or, for `invoke`, one Gemini SDK call that either
returns text or raises with a message). -/
structure Env where
  extract_metadata_from_url : Str → Metadata
  get_content_url : Str → Option Str
  extract_text_from_url : Str → Str
  invoke : Str → Except Str Str

/- ===== URLAnalyzer._analyze_content_with_gemini: content sampling =====
Source (url_analyzer.py lines 204-215):
  max_content_length = 16000
  if len(content) > max_content_length:
      beginning = content[:int(max_content_length/3)]
      middle_start = int(len(content)/2 - max_content_length/6)
      middle = content[middle_start:middle_start + int(max_content_length/3)]
      end = content[-int(max_content_length/3):]
      content_sample = f"{beginning}\n\n[...middle section omitted...]\n\n{middle}\n\n[...later section omitted...]\n\n{end}"
  else:
      content_sample = content
Float translation: int(16000/3) = 5333 = 16000 / 3 in Nat division;
int(len/2 - 16000/6) truncates the positive float L/2 - 2666.66…, whose
exact value (3L-16000)/6 is never an integer (3L mod 6 is 0 or 3, never
4), so for L in the float-exact range the truncation equals the exact
floor (3L - 16000) / 6. -/

def max_content_length : Nat := 16000

/-- `beginning = content[:int(max_content_length/3)]`. -/
def beginning (content : Str) : Str := content.take (max_content_length / 3)

/-- `middle_start = int(len(content)/2 - max_content_length/6)`. -/
def middle_start (content : Str) : Nat :=
  (3 * content.length - max_content_length) / 6

/-- `middle = content[middle_start:middle_start + int(max_content_length/3)]`. -/
def middle (content : Str) : Str :=
  (content.drop (middle_start content)).take (max_content_length / 3)

/-- `end = content[-int(max_content_length/3):]` (Python negative slice:
the last 5333 characters). -/
def end_part (content : Str) : Str :=
  content.drop (content.length - max_content_length / 3)

/-- The first joiner of the three-part sample. -/
def omitMid : Str := "\n\n[...middle section omitted...]\n\n".toList

/-- The second joiner of the three-part sample. -/
def omitLater : Str := "\n\n[...later section omitted...]\n\n".toList

/-- `content_sample` as computed at the top of
`URLAnalyzer._analyze_content_with_gemini`. -/
def content_sample (content : Str) : Str :=
  if content.length > max_content_length then
    beginning content ++ omitMid ++ middle content ++ omitLater ++ end_part content
  else content

/- ===== the prompt strings (f-strings of the source, with their
triple-quoted indentation) ===== -/

/-- `summary_prompt` of `URLAnalyzer._analyze_content_with_gemini`. -/
def summary_prompt (title author sample : Str) : Str :=
  "\n            Please provide a comprehensive summary of the book \"".toList ++ title ++
  "\" by ".toList ++ author ++
  ".\n            \n            Include the following in your summary:\n            1. Main plot points and narrative arc\n            2. Key characters and their development\n            3. Major themes and motifs\n            4. Writing style and tone\n            5. Historical or cultural context (if relevant)\n            \n            Make the summary detailed enough to give a good understanding of the book, but concise enough to be readable in a few minutes.\n            \n            Here is a sample of the book content to summarize:\n            ".toList ++
  sample ++
  "\n            \n            Provide a well-structured, engaging summary that captures the essence of the book.\n            ".toList

/-- `genre_prompt` of `URLAnalyzer._analyze_content_with_gemini`; its
excerpt argument is `content_sample[:8000]` at the call site. -/
def genre_prompt (title author excerpt : Str) : Str :=
  "\n            Based on the following excerpt from \"".toList ++ title ++
  "\" by ".toList ++ author ++
  ", classify the genre of this book.\n            Consider elements such as setting, themes, style, and plot elements.\n            Provide a single primary genre and up to three subgenres if applicable.\n            \n            Excerpt:\n            ".toList ++
  excerpt ++
  "\n            \n            Format your response as: Primary Genre: [genre], Subgenres: [subgenre1, subgenre2, subgenre3]\n            ".toList

/-- `prompt` of `URLAgent.chat_with_url`. -/
def chat_prompt (title author query content : Str) : Str :=
  "\n        You are an expert on the book \"".toList ++ title ++
  "\" by ".toList ++ author ++
  ". A user has asked the following question about the book:\n        \n        \"".toList ++
  query ++
  "\"\n        \n        Please provide a detailed and accurate response based on the book's content. If the question cannot be answered based on the book content, explain why and provide general information that might be helpful.\n        \n        Here are relevant sections from the book to reference:\n        ".toList ++
  content ++
  "\n        \n        Provide a thoughtful, well-structured response that directly addresses the user's question with specific references to the book content where possible.\n        ".toList

/-- `fallback_prompt` of `URLAgent.chat_with_url`; its excerpt argument
is `content[:8000] + "..."` at the call site. -/
def fallback_prompt (title author query excerpt : Str) : Str :=
  "Based on this excerpt from \"".toList ++ title ++ "\" by ".toList ++ author ++
  ", please answer: \"".toList ++ query ++ "\". Excerpt: ".toList ++ excerpt

/-- `f"Error generating summary: {str(e)}"`. -/
def error_generating (e : Str) : Str := "Error generating summary: ".toList ++ e

/-- `URLAnalyzer._analyze_content_with_gemini` after the sampling:
two sequential `self.llm.invoke` calls inside one `try`, whose `except`
returns the degraded dict.  The `Nat` is the number of `invoke` calls
made.  `metadata.get("title"/"author", …)` always finds its key, since
`_extract_metadata_from_url` puts all four keys in the dict. -/
def analyze_content_with_gemini (env : Env) (content : Str) (metadata : Metadata) :
    GeminiAnalysis × Nat :=
  let sample := content_sample content
  match env.invoke (summary_prompt metadata.title metadata.author sample) with
  | Except.error e =>
      (⟨error_generating e, "Unknown".toList, sample.take 4000⟩, 1)
  | Except.ok summary =>
      match env.invoke (genre_prompt metadata.title metadata.author (sample.take 8000)) with
      | Except.error e =>
          (⟨error_generating e, "Unknown".toList, sample.take 4000⟩, 2)
      | Except.ok genre => (⟨summary, genre, sample⟩, 2)

/-- The token tested by `if "gutenberg.org" not in url`. -/
def gutenbergTok : Str := "gutenberg.org".toList

/-- The error dict of the non-Gutenberg early return. -/
def gutenbergMsg : Str :=
  "This URL does not appear to be from Project Gutenberg. Please provide a valid Project Gutenberg URL.".toList

/-- `URLAnalyzer.analyze_url`.  The early return performs no call at
all; the main path issues one GET in `_extract_metadata_from_url`, one
in `_get_content_url` and one in `extract_text_from_url` (on the
content URL when one was found, else on `url` itself).  The trailing
`except` of the source is unreachable here: every helper catches its
own exceptions and returns a value. -/
def URLAnalyzer.analyze_url (env : Env) (url : Str) : AnalyzeResult × Calls :=
  if inStr gutenbergTok url then
    let metadata := env.extract_metadata_from_url url
    let contentUrl := env.get_content_url url
    let content :=
      match contentUrl with
      | some cu => env.extract_text_from_url cu
      | none => env.extract_text_from_url url
    let (analysis, nLlm) := analyze_content_with_gemini env content metadata
    (AnalyzeResult.ok ⟨metadata.title, metadata.author, metadata.language, metadata.year,
        analysis.summary, analysis.genre, analysis.content, url⟩, ⟨3, nLlm⟩)
  else (AnalyzeResult.err gutenbergMsg, ⟨0, 0⟩)

/- ===== URLAgent (url_agent.py) ===== -/

/-- `URLAgent.analyze_url`: a direct delegation to the analyzer. -/
def URLAgent.analyze_url (env : Env) (url : Str) : AnalyzeResult × Calls :=
  URLAnalyzer.analyze_url env url

/-- `analysis.get("summary", "Unable to generate summary")`: the merged
record always has the key, the error dict never does. -/
def summary_field : AnalyzeResult → Str
  | AnalyzeResult.ok r => r.summary
  | AnalyzeResult.err _ => "Unable to generate summary".toList

/-- `analysis.get("genre", "Unable to classify genre")`. -/
def genre_field : AnalyzeResult → Str
  | AnalyzeResult.ok r => r.genre
  | AnalyzeResult.err _ => "Unable to classify genre".toList

/-- `URLAgent.get_book_summary`. -/
def URLAgent.get_book_summary (env : Env) (url : Str) : Str × Calls :=
  let (analysis, c) := URLAgent.analyze_url env url
  (summary_field analysis, c)

/-- `URLAgent.classify_genre`. -/
def URLAgent.classify_genre (env : Env) (url : Str) : Str × Calls :=
  let (analysis, c) := URLAgent.analyze_url env url
  (genre_field analysis, c)

/-- `f"Error processing your query about '{title}': {str(e)}"`. -/
def error_processing (title e : Str) : Str :=
  "Error processing your query about '".toList ++ title ++ "': ".toList ++ e

/-- The final apologetic string of the chat fallback path. -/
def apology (title : Str) : Str :=
  "I'm sorry, but I couldn't process your query about '".toList ++ title ++
  "' due to content length limitations. Please try asking a more specific question.".toList

/-- `URLAgent.chat_with_url` (url_agent.py lines 89-143): analyze the
URL, build the chat prompt over the record's content, invoke the LLM;
on a raised invocation error retry once with `content[:8000] + "..."`
and the shorter fallback prompt, but only when `len(content) > 8000`;
a second raise yields the apology, and with content of at most 8000
characters the error string is returned with no retry. -/
def URLAgent.chat_with_url (env : Env) (url query : Str) : Str × Calls :=
  let (analysis, c) := URLAgent.analyze_url env url
  match analysis with
  | AnalyzeResult.err e => ( "Error: ".toList ++ e, c)
  | AnalyzeResult.ok r =>
      if r.content.isEmpty then ( "No content available for URL: ".toList ++ url, c)
      else
        match env.invoke (chat_prompt r.title r.author query r.content) with
        | Except.ok response => (response, bumpLlm c 1)
        | Except.error e =>
            if r.content.length > 8000 then
              let smaller_content := r.content.take 8000 ++ "...".toList
              match env.invoke (fallback_prompt r.title r.author query smaller_content) with
              | Except.ok response => (response, bumpLlm c 2)
              | Except.error _ => (apology r.title, bumpLlm c 2)
            else (error_processing r.title e, bumpLlm c 1)

/- ===== AgentSystem (agent_system.py) ===== -/

/-- The session slots of `AgentSystem.__init__`:
`self.current_url = None`, `self.current_analysis = None`. -/
structure SysState where
  current_url : Option Str
  current_analysis : Option AnalyzeResult
deriving DecidableEq

/-- The initial session state. -/
def initState : SysState := ⟨none, none⟩

/-- `self.current_analysis.get("title", "Unknown Title") if
self.current_analysis else "Unknown Title"` (the error dict has no
title key, so it also yields the default). -/
def title_from (s : SysState) : Str :=
  match s.current_analysis with
  | some (AnalyzeResult.ok r) => r.title
  | _ => "Unknown Title".toList

/-- `AgentSystem.analyze_url`: the only writer of the session slots;
it stores the url and the full analyzer result (error dict included)
together. -/
def AgentSystem.analyze_url (env : Env) (_s : SysState) (url : Str) :
    AnalyzeResult × SysState × Calls :=
  let (analysis, c) := URLAgent.analyze_url env url
  (analysis, ⟨some url, some analysis⟩, c)

/-- `AgentSystem.get_book_summary`: cache hit when
`url == self.current_url and self.current_analysis` (a stored dict is
always non-empty, hence truthy); otherwise delegate to the agent
without touching the session slots. -/
def AgentSystem.get_book_summary (env : Env) (s : SysState) (url : Str) :
    Str × SysState × Calls :=
  match s.current_analysis with
  | some a =>
      if s.current_url = some url then (summary_field a, s, ⟨0, 0⟩)
      else
        let (v, c) := URLAgent.get_book_summary env url
        (v, s, c)
  | none =>
      let (v, c) := URLAgent.get_book_summary env url
      (v, s, c)

/-- `AgentSystem.classify_genre`: symmetric to the summary path. -/
def AgentSystem.classify_genre (env : Env) (s : SysState) (url : Str) :
    Str × SysState × Calls :=
  match s.current_analysis with
  | some a =>
      if s.current_url = some url then (genre_field a, s, ⟨0, 0⟩)
      else
        let (v, c) := URLAgent.classify_genre env url
        (v, s, c)
  | none =>
      let (v, c) := URLAgent.classify_genre env url
      (v, s, c)

/-- `AgentSystem.chat_with_url`: a delegation, no session write. -/
def AgentSystem.chat_with_url (env : Env) (s : SysState) (url query : Str) :
    Str × SysState × Calls :=
  let (v, c) := URLAgent.chat_with_url env url query
  (v, s, c)

/-- `any(ref in query_lower for ref in ["the book", "this book", "current book"])`. -/
def uses_generic_reference (query_lower : Str) : Bool :=
  inStr "the book".toList query_lower || inStr "this book".toList query_lower ||
  inStr "current book".toList query_lower

/-- `AgentSystem._extract_url_reference(query, current_url)`: note that
both `return current_url` branches return the parameter (the explicit
URL argument), while `self.current_url` is the stored session URL. -/
def extract_url_reference (s : SysState) (query : Str) (current_url : Option Str) :
    Option Str :=
  let query_lower := lower query
  if uses_generic_reference query_lower && pyTruthy current_url then current_url
  else if !pyTruthy current_url && pyTruthy s.current_url then s.current_url
  else current_url

/-- The result dict of `AgentSystem.process_user_query`: the "type" key
picks the variant; "title"/"content"/"query" are the other keys. -/
inductive QueryResult where
  | error (content : Str)
  | summary (title content : Str)
  | genre (title content : Str)
  | chat (title query content : Str)
deriving DecidableEq

/-- The "type" field of a query result. -/
def QueryResult.typeStr : QueryResult → Str
  | QueryResult.error _ => "error".toList
  | QueryResult.summary _ _ => "summary".toList
  | QueryResult.genre _ _ => "genre".toList
  | QueryResult.chat _ _ _ => "chat".toList

/-- `"summarize" in query_lower or "summary" in query_lower`. -/
def summary_intent (query_lower : Str) : Bool :=
  inStr "summarize".toList query_lower || inStr "summary".toList query_lower

/-- `"genre" in query_lower or "classify" in query_lower`. -/
def genre_intent (query_lower : Str) : Bool :=
  inStr "genre".toList query_lower || inStr "classify".toList query_lower

/-- The fixed message of the no-URL error result. -/
def provideUrlMsg : Str := "Please provide a Project Gutenberg URL first.".toList

/-- `AgentSystem.process_user_query` (agent_system.py lines 140-187).
The summarization branch's inner `if` has two identical arms in the
source, so it is modelled as the single arm.  No branch assigns the
session slots, so the state passes through unchanged. -/
def AgentSystem.process_user_query (env : Env) (s : SysState) (query : Str)
    (current_url : Option Str) : QueryResult × SysState × Calls :=
  let query_lower := lower query
  let url_to_use := extract_url_reference s query current_url
  if !pyTruthy url_to_use then (QueryResult.error provideUrlMsg, s, ⟨0, 0⟩)
  else
    let u := url_to_use.getD []
    if summary_intent query_lower then
      let (summary, s2, c) := AgentSystem.get_book_summary env s u
      (QueryResult.summary (title_from s2) summary, s2, c)
    else if genre_intent query_lower then
      let (genre, s2, c) := AgentSystem.classify_genre env s u
      (QueryResult.genre (title_from s2) genre, s2, c)
    else
      let (response, s2, c) := AgentSystem.chat_with_url env s u query
      (QueryResult.chat (title_from s2) query response, s2, c)

/- ===== GeminiLLM (llm_wrapper.py) ===== -/

/-- `f"Error calling Gemini API: {str(e)}"`. -/
def geminiErrPrefix : Str := "Error calling Gemini API: ".toList

/-- `GeminiLLM._call`: the whole Gemini interaction (model
construction, `generate_content`, response-text extraction), abstracted
as `api`, sits inside one `try`; any raise is caught and converted to
the error string, so the method always returns a plain string. -/
def GeminiLLM.call (api : Str → Except Str Str) (prompt : Str) : Str :=
  match api prompt with
  | Except.ok text => text
  | Except.error e => geminiErrPrefix ++ e

/-- An `Env` whose LLM collaborator goes through the `GeminiLLM`
wrapper: `llm.invoke` then never raises, whatever the API does. -/
def wrapEnv (base : Env) (api : Str → Except Str Str) : Env :=
  ⟨base.extract_metadata_from_url, base.get_content_url, base.extract_text_from_url,
   fun p => Except.ok (GeminiLLM.call api p)⟩

/- ===== session operations, for the reachability invariant ===== -/

/-- One public operation of `AgentSystem`. -/
inductive Op where
  | analyze (url : Str)
  | query (q : Str) (current_url : Option Str)
  | summarize (url : Str)
  | classify (url : Str)
  | chat (url q : Str)

/-- The session state an operation leaves behind. -/
def stepOp (env : Env) (s : SysState) : Op → SysState
  | Op.analyze url => (AgentSystem.analyze_url env s url).2.1
  | Op.query q cu => (AgentSystem.process_user_query env s q cu).2.1
  | Op.summarize url => (AgentSystem.get_book_summary env s url).2.1
  | Op.classify url => (AgentSystem.classify_genre env s url).2.1
  | Op.chat url q => (AgentSystem.chat_with_url env s url q).2.1

/-- The session state after a sequence of operations from `__init__`. -/
def runOps (env : Env) (ops : List Op) : SysState :=
  ops.foldl (stepOp env) initState

/- ===== the host of a URL (claim-side notion) =====
Modelled from the spec: the claim and spec section 4.3 speak of a URL's
"host", which no code of the repository computes (the code tests the
substring "gutenberg.org" against the whole URL).  Host here follows
the standard URL syntax the spec's words assume: the text after the
"://" scheme separator, up to the first following "/". -/

/-- The text after the first "://" of a URL (empty when there is none). -/
def afterScheme : Str → Str
  | [] => []
  | c :: rest =>
      if "://".toList.isPrefixOf (c :: rest) then rest.drop 2
      else afterScheme rest

/-- Modelled from the spec: the host component of a URL. -/
def urlHost (url : Str) : Str :=
  (afterScheme url).takeWhile (fun c => c ≠ '/')

/- ===== concrete fixtures for witnesses and counterexamples ===== -/

/-- A Project Gutenberg book URL. -/
def gutUrl : Str := "https://www.gutenberg.org/ebooks/11".toList

/-- A second, different Project Gutenberg book URL. -/
def gutUrl12 : Str := "https://www.gutenberg.org/ebooks/12".toList

/-- A URL whose host is not gutenberg.org but whose path contains the
substring "gutenberg.org". -/
def evilUrl : Str := "http://evil.example/gutenberg.org".toList

/-- A URL that does not contain the substring "gutenberg.org" at all. -/
def exampleUrl : Str := "https://example.com/book".toList

/-- Fixed metadata used by the concrete environments. -/
def mdT : Metadata := ⟨ "T".toList, "A".toList, "English".toList, "2000".toList⟩

/-- A concrete environment: short book text, an LLM that always
answers. -/
def testEnv : Env :=
  ⟨fun _ => mdT, fun _ => none, fun _ => "hello world content".toList,
   fun _ => Except.ok ( "LLM answer".toList )⟩

/-- A concrete environment whose LLM always raises. -/
def failEnv : Env :=
  ⟨fun _ => mdT, fun _ => none, fun _ => "abc".toList,
   fun _ => Except.error ( "boom".toList )⟩

/-- A concrete environment with 8100 characters of book text and an
LLM that answers the analyzer's summary and genre prompts but raises
on every other prompt (chat and fallback included). -/
def chatFailEnv : Env :=
  ⟨fun _ => mdT, fun _ => none, fun _ => List.replicate 8100 'a',
   fun p =>
     if inStr "Please provide a comprehensive summary".toList (p.take 120) ||
        inStr "classify the genre of this book".toList (p.take 120) then
       Except.ok ( "ok".toList )
     else Except.error ( "boom".toList )⟩

/-- The record `testEnv` produces for any Gutenberg URL `gutUrl`. -/
def aliceRec : BookRecord :=
  ⟨mdT.title, mdT.author, mdT.language, mdT.year, "LLM answer".toList,
   "LLM answer".toList, "hello world content".toList, gutUrl⟩

/-- A session state holding `gutUrl` and its `testEnv` analysis. -/
def cachedAlice : SysState := ⟨some gutUrl, some (AnalyzeResult.ok aliceRec)⟩

/-- The record `chatFailEnv` produces for `gutUrl`. -/
def chatRec : BookRecord :=
  ⟨mdT.title, mdT.author, mdT.language, mdT.year, "ok".toList, "ok".toList,
   List.replicate 8100 'a', gutUrl⟩

/-- A Gemini API that always raises. -/
def apiDown : Str → Except Str Str := fun _ => Except.error ( "down".toList )

/-- The record `wrapEnv testEnv apiDown` produces for `gutUrl`. -/
def downRec : BookRecord :=
  ⟨mdT.title, mdT.author, mdT.language, mdT.year, geminiErrPrefix ++ "down".toList,
   geminiErrPrefix ++ "down".toList, "hello world content".toList, gutUrl⟩

/- ===================== helper lemmas ===================== -/

lemma isEmpty_false_of_ne_nil {l : Str} (h : l ≠ []) : l.isEmpty = false := by
  cases l with
  | nil => exact absurd rfl h
  | cons a t => rfl

lemma pyTruthy_of_ne_nil {u : Str} (hu : u ≠ []) : pyTruthy (some u) = true := by
  cases u with
  | nil => exact absurd rfl hu
  | cons a t => rfl

lemma get_book_summary_hit (env : Env) (url : Str) (a : AnalyzeResult) :
    AgentSystem.get_book_summary env ⟨some url, some a⟩ url =
      (summary_field a, ⟨some url, some a⟩, ⟨0, 0⟩) := by
  rw [AgentSystem.get_book_summary]
  exact if_pos rfl

lemma get_book_summary_miss (env : Env) (s : SysState) (url : Str)
    (hmiss : s.current_url ≠ some url) :
    AgentSystem.get_book_summary env s url =
      ((URLAgent.get_book_summary env url).1, s, (URLAgent.get_book_summary env url).2) := by
  rw [AgentSystem.get_book_summary]
  split
  · exact if_neg hmiss
  · rfl

lemma classify_genre_miss (env : Env) (s : SysState) (url : Str)
    (hmiss : s.current_url ≠ some url) :
    AgentSystem.classify_genre env s url =
      ((URLAgent.classify_genre env url).1, s, (URLAgent.classify_genre env url).2) := by
  rw [AgentSystem.classify_genre]
  split
  · exact if_neg hmiss
  · rfl

lemma get_book_summary_state (env : Env) (s : SysState) (url : Str) :
    (AgentSystem.get_book_summary env s url).2.1 = s := by
  rw [AgentSystem.get_book_summary]
  split
  · split <;> rfl
  · rfl

lemma classify_genre_state (env : Env) (s : SysState) (url : Str) :
    (AgentSystem.classify_genre env s url).2.1 = s := by
  rw [AgentSystem.classify_genre]
  split
  · split <;> rfl
  · rfl

lemma process_user_query_state (env : Env) (s : SysState) (q : Str) (cu : Option Str) :
    (AgentSystem.process_user_query env s q cu).2.1 = s := by
  rw [AgentSystem.process_user_query]
  split
  · rfl
  · split
    · exact get_book_summary_state env s _
    · split
      · exact classify_genre_state env s _
      · rfl

/- ===================== theorems ===================== -/

/-- C4 counterexample: at the 30000-character input, the first sample
segment has length 5333, not (even up to rounding) L/3 = 10000, so the
claimed segment length is false on the code. -/
theorem c4_counterexample :
    max_content_length < (List.replicate 30000 'a' : Str).length ∧
    (beginning (List.replicate 30000 'a')).length = 5333 ∧
    (beginning (List.replicate 30000 'a')).length + 1 <
      (List.replicate 30000 'a' : Str).length / 3 := by
  refine ⟨?_, ?_, ?_⟩ <;>
    simp only [beginning, max_content_length, List.length_take,
      List.length_replicate] <;> decide

/-- C4 (amended): for input text of length L > 16000, each of the three
sample segments has length 5333 = int(16000/3), independent of L; the
middle segment is still centred at index L/2 (the sum of its two slice
endpoints, 2*middle_start + 5333, lands in {L-2, L-1}); and the sample
is the three segments joined with the omission markers. -/
theorem c4_sample_segment_lengths (c : Str) (h : max_content_length < c.length) :
    (beginning c).length = 5333 ∧
    (middle c).length = 5333 ∧
    (end_part c).length = 5333 ∧
    c.length - 2 ≤ 2 * middle_start c + 5333 ∧
    2 * middle_start c + 5333 < c.length ∧
    content_sample c =
      beginning c ++ omitMid ++ middle c ++ omitLater ++ end_part c := by
  have hL : 16000 < c.length := h
  refine ⟨?_, ?_, ?_, ?_, ?_, ?_⟩
  · rw [beginning, List.length_take, max_content_length]
    omega
  · rw [middle, List.length_take, List.length_drop, middle_start, max_content_length]
    omega
  · rw [end_part, List.length_drop, max_content_length]
    omega
  · rw [middle_start, max_content_length]
    omega
  · rw [middle_start, max_content_length]
    omega
  · rw [content_sample, if_pos h]

/-- C4 witness: the amended statement evaluated at a concrete
16001-character text. -/
theorem c4_sample_segment_lengths_witness :
    (beginning (List.replicate 16001 'b')).length = 5333 ∧
    (middle (List.replicate 16001 'b')).length = 5333 ∧
    (end_part (List.replicate 16001 'b')).length = 5333 ∧
    (List.replicate 16001 'b' : Str).length - 2 ≤
      2 * middle_start (List.replicate 16001 'b') + 5333 ∧
    2 * middle_start (List.replicate 16001 'b') + 5333 <
      (List.replicate 16001 'b' : Str).length ∧
    content_sample (List.replicate 16001 'b') =
      beginning (List.replicate 16001 'b') ++ omitMid ++
      middle (List.replicate 16001 'b') ++ omitLater ++
      end_part (List.replicate 16001 'b') :=
  c4_sample_segment_lengths (List.replicate 16001 'b')
    (by simp only [max_content_length, List.length_replicate]; decide)

/-- C8 counterexample: `http://evil.example/gutenberg.org` has host
`evil.example`, not gutenberg.org, yet `analyze_url` does not return
the non-Gutenberg error record and performs three fetches and two LLM
calls, because the code tests the substring "gutenberg.org" against
the whole URL rather than its host. -/
theorem c8_counterexample :
    urlHost evilUrl = "evil.example".toList ∧
    urlHost evilUrl ≠ gutenbergTok ∧
    (URLAnalyzer.analyze_url testEnv evilUrl).1 ≠ AnalyzeResult.err gutenbergMsg ∧
    (URLAnalyzer.analyze_url testEnv evilUrl).2.fetches = 3 ∧
    (URLAnalyzer.analyze_url testEnv evilUrl).2.llm_calls = 2 := by
  decide

/-- C8 (amended): for every URL not containing the substring
"gutenberg.org", `analyze_url` returns the error record with the fixed
message and performs zero fetches and zero LLM calls. -/
theorem c8_substring_gate (env : Env) (url : Str)
    (h : inStr gutenbergTok url = false) :
    URLAnalyzer.analyze_url env url = (AnalyzeResult.err gutenbergMsg, ⟨0, 0⟩) := by
  rw [URLAnalyzer.analyze_url, h]
  rfl

/-- C8 witness: the amended statement at `https://example.com/book`. -/
theorem c8_substring_gate_witness :
    inStr gutenbergTok exampleUrl = false ∧
    URLAnalyzer.analyze_url testEnv exampleUrl =
      (AnalyzeResult.err gutenbergMsg, ⟨0, 0⟩) :=
  ⟨by decide, c8_substring_gate testEnv exampleUrl (by decide)⟩

/-- C1 counterexample: with a non-empty session URL (`gutUrl`), a query
containing "this book", and a different explicit URL argument
(`gutUrl12`), the resolution step yields the explicit argument, not the
session URL. -/
theorem c1_counterexample :
    pyTruthy (some gutUrl) = true ∧
    uses_generic_reference (lower ( "summarize this book".toList )) = true ∧
    extract_url_reference ⟨some gutUrl, none⟩ ( "summarize this book".toList )
      (some gutUrl12) = some gutUrl12 ∧
    gutUrl12 ≠ gutUrl := by
  decide

/-- C1 (amended): for a query with a generic book reference and a
non-empty session URL, resolution yields the session URL only when no
truthy explicit URL argument is supplied; a truthy explicit argument is
returned unchanged. -/
theorem c1_generic_reference_resolution (s : SysState) (q : Str)
    (current_url : Option Str) (u : Str)
    (hsess : s.current_url = some u) (hu : u ≠ [])
    (hgen : uses_generic_reference (lower q) = true) :
    (pyTruthy current_url = true →
      extract_url_reference s q current_url = current_url) ∧
    (pyTruthy current_url = false →
      extract_url_reference s q current_url = some u) := by
  obtain ⟨ch, rest, rfl⟩ : ∃ ch rest, u = ch :: rest := by
    cases u with
    | nil => exact absurd rfl hu
    | cons ch rest => exact ⟨ch, rest, rfl⟩
  constructor <;> intro ht <;>
    simp only [extract_url_reference, hgen, ht, hsess] <;> simp [pyTruthy]

/-- C1 witness: the amended statement with session URL `gutUrl`, the
query "summarize this book" and no explicit argument. -/
theorem c1_generic_reference_resolution_witness :
    extract_url_reference ⟨some gutUrl, none⟩ ( "summarize this book".toList )
      none = some gutUrl :=
  (c1_generic_reference_resolution ⟨some gutUrl, none⟩ _ none gutUrl rfl
    (by decide) (by decide)).2 rfl

/-- C6 counterexample: when the LLM raises "boom", the degraded record's
genre field is the literal "Unknown" and does not contain the error
message (while the summary field does embed it). -/
theorem c6_counterexample :
    (analyze_content_with_gemini failEnv ( "abc".toList ) mdT).1.genre =
      "Unknown".toList ∧
    inStr "boom".toList
      (analyze_content_with_gemini failEnv ( "abc".toList ) mdT).1.genre = false ∧
    (analyze_content_with_gemini failEnv ( "abc".toList ) mdT).1.summary =
      error_generating ( "boom".toList ) := by
  decide

/-- C6 (amended): if either LLM call of the summary/genre step raises,
the step still returns a record instead of propagating: its summary
field embeds the error message, its genre field is the literal
"Unknown", and its content field is the sample truncated to 4000
characters; and for any Gutenberg URL the analyzer wraps that record
into a non-error result. -/
theorem c6_llm_failure_degraded_record (env : Env) (content : Str)
    (metadata : Metadata) :
    (∀ e, env.invoke (summary_prompt metadata.title metadata.author
        (content_sample content)) = Except.error e →
      analyze_content_with_gemini env content metadata =
        (⟨error_generating e, "Unknown".toList,
          (content_sample content).take 4000⟩, 1)) ∧
    (∀ t e, env.invoke (summary_prompt metadata.title metadata.author
        (content_sample content)) = Except.ok t →
      env.invoke (genre_prompt metadata.title metadata.author
        ((content_sample content).take 8000)) = Except.error e →
      analyze_content_with_gemini env content metadata =
        (⟨error_generating e, "Unknown".toList,
          (content_sample content).take 4000⟩, 2)) ∧
    (∀ url, inStr gutenbergTok url = true →
      ∃ r n, URLAnalyzer.analyze_url env url = (AnalyzeResult.ok r, ⟨3, n⟩)) := by
  refine ⟨?_, ?_, ?_⟩
  · intro e he
    rw [analyze_content_with_gemini, he]
  · intro t e ht he
    rw [analyze_content_with_gemini, ht, he]
  · intro url h
    rw [URLAnalyzer.analyze_url, h]
    exact ⟨_, _, rfl⟩

/-- C6 witness: the amended statement at the always-raising
environment and a short concrete text. -/
theorem c6_llm_failure_degraded_record_witness :
    analyze_content_with_gemini failEnv ( "abc".toList ) mdT =
      (⟨error_generating ( "boom".toList ), "Unknown".toList,
        (content_sample ( "abc".toList )).take 4000⟩, 1) :=
  (c6_llm_failure_degraded_record failEnv ( "abc".toList ) mdT).1
    ( "boom".toList ) rfl

/-- C2 counterexample: with `gutUrl` cached in the session, a summary
query carrying the different URL `gutUrl12` runs a fresh analysis
(3 fetches, 2 LLM calls) but leaves the session cache unchanged, and
an identical follow-up query against `gutUrl12` runs the analyzer
again (3 more fetches) instead of finding a cached analysis. -/
theorem c2_counterexample :
    (AgentSystem.process_user_query testEnv cachedAlice ( "summary".toList )
        (some gutUrl12)).2.1 = cachedAlice ∧
    cachedAlice.current_url = some gutUrl ∧
    gutUrl ≠ gutUrl12 ∧
    (AgentSystem.process_user_query testEnv cachedAlice ( "summary".toList )
        (some gutUrl12)).2.2 = ⟨3, 2⟩ ∧
    (AgentSystem.process_user_query testEnv
        ((AgentSystem.process_user_query testEnv cachedAlice ( "summary".toList )
          (some gutUrl12)).2.1)
        ( "summary".toList ) (some gutUrl12)).2.2 = ⟨3, 2⟩ := by
  decide

/-- C2 (amended): for a summary- or genre-intent query whose resolved
URL is not the session's cached URL, the router runs the Content
Analyzer on that URL and returns the fresh result, but stores nothing:
the session cache is returned unchanged (only the analyze operation
writes it), so a subsequent query against the same URL re-runs the
analyzer. -/
theorem c2_fresh_analysis_not_cached (env : Env) (s : SysState) (q : Str)
    (current_url : Option Str) (u : Str)
    (hres : extract_url_reference s q current_url = some u) (hu : u ≠ [])
    (hmiss : s.current_url ≠ some u) :
    (summary_intent (lower q) = true →
      AgentSystem.process_user_query env s q current_url =
        (QueryResult.summary (title_from s) (URLAgent.get_book_summary env u).1, s,
          (URLAgent.get_book_summary env u).2)) ∧
    (summary_intent (lower q) = false → genre_intent (lower q) = true →
      AgentSystem.process_user_query env s q current_url =
        (QueryResult.genre (title_from s) (URLAgent.classify_genre env u).1, s,
          (URLAgent.classify_genre env u).2)) := by
  have hT : pyTruthy (some u) = true := pyTruthy_of_ne_nil hu
  constructor
  · intro hsum
    simp only [AgentSystem.process_user_query, hres, hT, Bool.not_true,
      Bool.false_eq_true, if_false, Option.getD_some, hsum, if_true]
    rw [get_book_summary_miss env s u hmiss]
  · intro hsum hgen
    simp only [AgentSystem.process_user_query, hres, hT, Bool.not_true,
      Bool.false_eq_true, if_false, Option.getD_some, hsum, hgen, if_true]
    rw [classify_genre_miss env s u hmiss]

/-- C2 witness: the amended statement at the concrete cache-miss
scenario of the counterexample. -/
theorem c2_fresh_analysis_not_cached_witness :
    AgentSystem.process_user_query testEnv cachedAlice ( "summary".toList )
        (some gutUrl12) =
      (QueryResult.summary (title_from cachedAlice)
        (URLAgent.get_book_summary testEnv gutUrl12).1, cachedAlice,
        (URLAgent.get_book_summary testEnv gutUrl12).2) :=
  (c2_fresh_analysis_not_cached testEnv cachedAlice ( "summary".toList )
    (some gutUrl12) gutUrl12 (by decide) (by decide) (by decide)).1 (by decide)

/-- C3: after a successful `analyze_url(url)` stored the record in the
session, any summary-intent query processed with no explicit URL
argument resolves to that url, returns exactly the cached record's
summary field, and performs zero fetches and zero LLM calls. -/
theorem c3_cached_summary_after_analyze (env : Env) (s0 st : SysState) (url q : Str)
    (r : BookRecord) (c : Calls)
    (h : AgentSystem.analyze_url env s0 url = (AnalyzeResult.ok r, st, c))
    (hq : summary_intent (lower q) = true) :
    AgentSystem.process_user_query env st q none =
      (QueryResult.summary r.title r.summary, st, ⟨0, 0⟩) := by
  have h' : ((URLAgent.analyze_url env url).1,
      (⟨some url, some (URLAgent.analyze_url env url).1⟩ : SysState),
      (URLAgent.analyze_url env url).2) = (AnalyzeResult.ok r, st, c) := h
  have e1 : (URLAgent.analyze_url env url).1 = AnalyzeResult.ok r :=
    congrArg (fun p => p.1) h'
  have e2 : (⟨some url, some (URLAgent.analyze_url env url).1⟩ : SysState) = st :=
    congrArg (fun p => p.2.1) h'
  rw [e1] at e2
  subst e2
  have hin : inStr gutenbergTok url = true := by
    cases hb : inStr gutenbergTok url with
    | true => rfl
    | false =>
        rw [URLAgent.analyze_url, URLAnalyzer.analyze_url, hb] at e1
        simp at e1
  have hu : url ≠ [] := by
    intro hnil
    rw [hnil] at hin
    exact absurd hin (by decide)
  have hres : extract_url_reference ⟨some url, some (AnalyzeResult.ok r)⟩ q none =
      some url := by
    simp only [extract_url_reference]
    simp [pyTruthy, pyTruthy_of_ne_nil hu, isEmpty_false_of_ne_nil hu]
  simp only [AgentSystem.process_user_query, hres, pyTruthy_of_ne_nil hu,
    Bool.not_true, Bool.false_eq_true, if_false, Option.getD_some, hq, if_true]
  rw [get_book_summary_hit env url (AnalyzeResult.ok r)]
  rfl

/-- C3 witness: the concrete scenario — analyze `gutUrl` under
`testEnv`, then process "summarize this book". -/
theorem c3_cached_summary_after_analyze_witness :
    AgentSystem.process_user_query testEnv
        ⟨some gutUrl, some (AnalyzeResult.ok aliceRec)⟩
        ( "summarize this book".toList ) none =
      (QueryResult.summary aliceRec.title aliceRec.summary,
        ⟨some gutUrl, some (AnalyzeResult.ok aliceRec)⟩, ⟨0, 0⟩) :=
  c3_cached_summary_after_analyze testEnv initState
    ⟨some gutUrl, some (AnalyzeResult.ok aliceRec)⟩ gutUrl
    ( "summarize this book".toList ) aliceRec ⟨3, 2⟩ (by decide) (by decide)

/-- C9: intent classification is first-match-wins over substring tests
on the lowercased query: summary intent ("summarize"/"summary") beats
genre intent ("genre"/"classify"), which beats chat; in particular a
query containing both "summary" and "genre" yields a summary-typed
result. -/
theorem c9_intent_first_match (env : Env) (s : SysState) (q : Str) (cu : Option Str)
    (hres : pyTruthy (extract_url_reference s q cu) = true) :
    (summary_intent (lower q) = true →
      (AgentSystem.process_user_query env s q cu).1.typeStr = "summary".toList) ∧
    (summary_intent (lower q) = false → genre_intent (lower q) = true →
      (AgentSystem.process_user_query env s q cu).1.typeStr = "genre".toList) ∧
    (summary_intent (lower q) = false → genre_intent (lower q) = false →
      (AgentSystem.process_user_query env s q cu).1.typeStr = "chat".toList) ∧
    (inStr "summary".toList (lower q) = true →
      inStr "genre".toList (lower q) = true →
      (AgentSystem.process_user_query env s q cu).1.typeStr = "summary".toList) := by
  refine ⟨?_, ?_, ?_, ?_⟩
  · intro hsum
    simp only [AgentSystem.process_user_query, hres, Bool.not_true,
      Bool.false_eq_true, if_false, hsum, if_true]
    rfl
  · intro hsum hgen
    simp only [AgentSystem.process_user_query, hres, Bool.not_true,
      Bool.false_eq_true, if_false, hsum, hgen, if_true]
    rfl
  · intro hsum hgen
    simp only [AgentSystem.process_user_query, hres, Bool.not_true,
      Bool.false_eq_true, if_false, hsum, hgen]
    rfl
  · intro hs hg
    have hsum : summary_intent (lower q) = true := by
      rw [summary_intent, hs, Bool.or_true]
    simp only [AgentSystem.process_user_query, hres, Bool.not_true,
      Bool.false_eq_true, if_false, hsum, if_true]
    rfl

/-- C9 witness: "Can you summary the genre?" contains both "summary"
and "genre" and classifies as summary. -/
theorem c9_intent_first_match_witness :
    (AgentSystem.process_user_query testEnv cachedAlice
      ( "Can you summary the genre?".toList ) none).1.typeStr = "summary".toList :=
  (c9_intent_first_match testEnv cachedAlice
    ( "Can you summary the genre?".toList ) none (by decide)).2.2.2
    (by decide) (by decide)

/-- The pairing property of C5: a present analysis is the analyzer's
record for the session URL next to it. -/
def paired (env : Env) (s : SysState) : Prop :=
  ∀ a, s.current_analysis = some a →
    ∃ u, s.current_url = some u ∧ a = (URLAgent.analyze_url env u).1

lemma paired_step (env : Env) (s : SysState) (op : Op) (hp : paired env s) :
    paired env (stepOp env s op) := by
  cases op with
  | analyze url =>
      intro a ha
      refine ⟨url, rfl, ?_⟩
      have ha' : some ((URLAgent.analyze_url env url).1) = some a := ha
      exact (Option.some.inj ha').symm
  | query q cu =>
      have hst : stepOp env s (Op.query q cu) = s := process_user_query_state env s q cu
      rw [hst]
      exact hp
  | summarize url =>
      have hst : stepOp env s (Op.summarize url) = s := get_book_summary_state env s url
      rw [hst]
      exact hp
  | classify url =>
      have hst : stepOp env s (Op.classify url) = s := classify_genre_state env s url
      rw [hst]
      exact hp
  | chat url q =>
      have hst : stepOp env s (Op.chat url q) = s := rfl
      rw [hst]
      exact hp

lemma paired_foldl (env : Env) (ops : List Op) :
    ∀ s : SysState, paired env s → paired env (ops.foldl (stepOp env) s) := by
  induction ops with
  | nil => intro s hp; exact hp
  | cons op rest ih =>
      intro s hp
      exact ih (stepOp env s op) (paired_step env s op hp)

/-- C5: in every session state reachable from `__init__` by the public
operations, a present `current_analysis` is exactly the analyzer's
record for the `current_url` stored next to it — the two slots are
written only together, by the analyze operation. -/
theorem c5_session_pairing_invariant (env : Env) (ops : List Op) (a : AnalyzeResult)
    (h : (runOps env ops).current_analysis = some a) :
    ∃ u, (runOps env ops).current_url = some u ∧
      a = (URLAgent.analyze_url env u).1 := by
  have hinit : paired env initState := by
    intro x hx
    exact Option.noConfusion hx
  exact paired_foldl env ops initState hinit a h

/-- C5 witness: the invariant evaluated after one concrete analyze
operation. -/
theorem c5_session_pairing_invariant_witness :
    ∃ u, (runOps testEnv [Op.analyze gutUrl]).current_url = some u ∧
      (URLAgent.analyze_url testEnv gutUrl).1 = (URLAgent.analyze_url testEnv u).1 :=
  c5_session_pairing_invariant testEnv [Op.analyze gutUrl]
    ((URLAgent.analyze_url testEnv gutUrl).1) rfl

/-- C7: in the chat path, when the LLM invocation on the chat prompt
raises: with content of at most 8000 characters there is no retry and
the result is the error-processing string (one LLM call); with content
over 8000 characters exactly one retry is made, on the fallback prompt
over the first 8000 characters of the content plus "..." (two LLM
calls in total), whose success is returned and whose failure yields
the apologetic string. -/
theorem c7_chat_retry_policy (env : Env) (url query : Str) (r : BookRecord)
    (c : Calls) (e : Str)
    (ha : URLAgent.analyze_url env url = (AnalyzeResult.ok r, c))
    (hne : r.content ≠ [])
    (hfail : env.invoke (chat_prompt r.title r.author query r.content) =
      Except.error e) :
    (r.content.length ≤ 8000 →
      URLAgent.chat_with_url env url query =
        (error_processing r.title e, bumpLlm c 1)) ∧
    (8000 < r.content.length →
      (∀ t, env.invoke (fallback_prompt r.title r.author query
          (r.content.take 8000 ++ "...".toList)) = Except.ok t →
        URLAgent.chat_with_url env url query = (t, bumpLlm c 2)) ∧
      (∀ e2, env.invoke (fallback_prompt r.title r.author query
          (r.content.take 8000 ++ "...".toList)) = Except.error e2 →
        URLAgent.chat_with_url env url query = (apology r.title, bumpLlm c 2))) := by
  have hemp : r.content.isEmpty = false := isEmpty_false_of_ne_nil hne
  refine ⟨?_, ?_⟩
  · intro hlen
    rw [URLAgent.chat_with_url, ha]
    simp only [hemp, Bool.false_eq_true, if_false, hfail]
    rw [if_neg (by omega : ¬ 8000 < r.content.length)]
  · intro hlen
    constructor
    · intro t hfb
      rw [URLAgent.chat_with_url, ha]
      simp only [hemp, Bool.false_eq_true, if_false, hfail]
      rw [if_pos hlen]
      simp only [hfb]
    · intro e2 hfb
      rw [URLAgent.chat_with_url, ha]
      simp only [hemp, Bool.false_eq_true, if_false, hfail]
      rw [if_pos hlen]
      simp only [hfb]

/-- C7 witness: the concrete over-8000 scenario where both the chat
invocation and the retry raise, yielding the apologetic string after
exactly one retry. -/
theorem c7_chat_retry_policy_witness :
    URLAgent.chat_with_url chatFailEnv gutUrl ( "who".toList ) =
      (apology chatRec.title, bumpLlm ⟨3, 2⟩ 2) := by
  have hcontent : chatRec.content = List.replicate 8100 'a' := rfl
  have hne : chatRec.content ≠ [] := by
    rw [hcontent]
    intro hv
    have hlv := congrArg List.length hv
    rw [List.length_replicate] at hlv
    exact absurd hlv (by decide)
  have hlen : 8000 < chatRec.content.length := by
    rw [hcontent, List.length_replicate]
    decide
  have hsample : content_sample (List.replicate 8100 'a') = List.replicate 8100 'a' := by
    rw [content_sample, if_neg]
    rw [List.length_replicate]
    decide
  have hs1 : chatFailEnv.invoke (summary_prompt mdT.title mdT.author
      (List.replicate 8100 'a')) = Except.ok ( "ok".toList ) := rfl
  have hs2 : chatFailEnv.invoke (genre_prompt mdT.title mdT.author
      ((List.replicate 8100 'a').take 8000)) = Except.ok ( "ok".toList ) := rfl
  have hacg : analyze_content_with_gemini chatFailEnv (List.replicate 8100 'a') mdT =
      (⟨ "ok".toList, "ok".toList, List.replicate 8100 'a'⟩, 2) := by
    rw [analyze_content_with_gemini, hsample, hs1, hs2]
  have hm : chatFailEnv.extract_metadata_from_url gutUrl = mdT := rfl
  have hcu : chatFailEnv.get_content_url gutUrl = none := rfl
  have ht : chatFailEnv.extract_text_from_url gutUrl = List.replicate 8100 'a' := rfl
  have ha : URLAgent.analyze_url chatFailEnv gutUrl = (AnalyzeResult.ok chatRec, ⟨3, 2⟩) := by
    rw [URLAgent.analyze_url, URLAnalyzer.analyze_url,
      if_pos (by decide : inStr gutenbergTok gutUrl = true), hm, hcu]
    dsimp only
    rw [ht, hacg]
    rfl
  have hfail : chatFailEnv.invoke (chat_prompt chatRec.title chatRec.author
      ( "who".toList ) chatRec.content) = Except.error ( "boom".toList ) := rfl
  have hfb : chatFailEnv.invoke (fallback_prompt chatRec.title chatRec.author
      ( "who".toList ) (chatRec.content.take 8000 ++ "...".toList)) =
      Except.error ( "boom".toList ) := rfl
  exact ((c7_chat_retry_policy chatFailEnv gutUrl ( "who".toList ) chatRec ⟨3, 2⟩
    ( "boom".toList ) ha hne hfail).2 hlen).2 ( "boom".toList ) hfb

/-- C10: the LLM wrapper's call is total — an API failure is caught
and converted to the error string — so with `llm.invoke` implemented
by the wrapper, the analyzer's summary/genre step always takes its
non-exception branch, and the chat path returns the wrapper's string
directly (its retry and error branches cannot be triggered by an API
failure). -/
theorem c10_wrapper_total (base : Env) (api : Str → Except Str Str) :
    (∀ p e, api p = Except.error e →
      GeminiLLM.call api p = geminiErrPrefix ++ e) ∧
    (∀ content metadata,
      analyze_content_with_gemini (wrapEnv base api) content metadata =
        (⟨GeminiLLM.call api (summary_prompt metadata.title metadata.author
            (content_sample content)),
          GeminiLLM.call api (genre_prompt metadata.title metadata.author
            ((content_sample content).take 8000)),
          content_sample content⟩, 2)) ∧
    (∀ url q r c,
      URLAgent.analyze_url (wrapEnv base api) url = (AnalyzeResult.ok r, c) →
      r.content ≠ [] →
      URLAgent.chat_with_url (wrapEnv base api) url q =
        (GeminiLLM.call api (chat_prompt r.title r.author q r.content),
          bumpLlm c 1)) := by
  refine ⟨?_, ?_, ?_⟩
  · intro p e h
    rw [GeminiLLM.call, h]
  · intro content metadata
    rfl
  · intro url q r c ha hne
    rw [URLAgent.chat_with_url, ha]
    simp only [isEmpty_false_of_ne_nil hne, Bool.false_eq_true, if_false]
    rfl

/-- C10 witness: a permanently failing API — the wrapper returns its
error string, and the chat path returns that string as an ordinary
answer with a single LLM call. -/
theorem c10_wrapper_total_witness :
    GeminiLLM.call apiDown ( "ping".toList ) = geminiErrPrefix ++ "down".toList ∧
    URLAgent.chat_with_url (wrapEnv testEnv apiDown) gutUrl ( "q".toList ) =
      (GeminiLLM.call apiDown
        (chat_prompt downRec.title downRec.author ( "q".toList ) downRec.content),
        bumpLlm ⟨3, 2⟩ 1) :=
  ⟨(c10_wrapper_total testEnv apiDown).1 ( "ping".toList ) ( "down".toList ) rfl,
   (c10_wrapper_total testEnv apiDown).2.2 gutUrl ( "q".toList ) downRec ⟨3, 2⟩
     (by decide) (by decide)⟩

end BookBot
